/-
Verification of the MOF synthetic-data generator
(`generate_synthetic_data.py`) against its natural-language
specification.

The Python module is shallowly embedded here.  Exact decimal table
constants and grid arithmetic are modelled over `ℚ`; quantities built
from transcendental functions (`exp`, real/complex powers) are modelled
over `ℝ` and `ℂ`.  NumPy's seeded global random generator is modelled as
explicit streams of draws (`ℕ → ℝ` for the uniform/normal draws,
`ℕ → ℕ` for categorical choices), consumed at fixed offsets in the
fixed call order of the script.  A Python dict access `d[k]` that can
raise `KeyError` is modelled as an `Except PyError` computation;
`np.random.normal`/`np.random.random` draws appear as explicit stream
arguments, so every function of the script becomes a pure function of
its inputs and its random draws.
-/
import Mathlib

namespace MOFGen

set_option maxRecDepth 16000

/-! ## Data model and property tables (lines 11-72 of the script) -/

/-- Configuration constant `NUM_SAMPLES = 5000`. -/
def NUM_SAMPLES : ℕ := 5000

/-- Configuration constant `RANDOM_SEED = 42`. -/
def RANDOM_SEED : ℕ := 42

/-- The fixed metal universe `METALS`. -/
def METALS : List String :=
  ["Cu", "Ni", "Co", "Zn", "Fe", "Mn", "Ag", "Au", "Pd", "Pt", "Cr",
   "V", "Ti", "Mo", "W"]

/-- The fixed valency universe `VALENCIES = [1, 2, 3]`. -/
def VALENCIES : List ℕ := [1, 2, 3]

/-- The fixed ligand universe `LIGANDS`. -/
def LIGANDS : List String := ["BDC", "BTC", "DOBDC", "BPDC", "NDC", "TPA"]

/-- The fixed assembly universe `ASSEMBLIES`. -/
def ASSEMBLIES : List String := ["Two-Electrode", "Three-Electrode"]

/-- The fixed electrode-substrate universe `ELECTRODES`. -/
def ELECTRODES : List String :=
  ["Nickel Foam", "Glassy Carbon", "Carbon Cloth", "Stainless Steel"]

/-- The fixed MOF-flag universe `IS_MOF = [True, False]`. -/
def IS_MOF : List Bool := [true, false]

/-- One draw of the script's `params` dict: a material parameter set. -/
structure MaterialParameters where
  metal : String
  valency : ℕ
  ligand : String
  assembly : String
  electrode : String
  is_mof : Bool
  deriving DecidableEq, Repr

/-- Value of one `METAL_PROPERTIES` entry. -/
structure MetalProps where
  redox_factor : ℚ
  conductivity : ℚ
  plasmon_peak : ℚ
  d_transition : ℚ
  deriving DecidableEq, Repr

/-- Value of one `ELECTRODE_PROPERTIES` entry. -/
structure ElectrodeProps where
  capacity_boost : ℚ
  resistance : ℚ
  deriving DecidableEq, Repr

/-- Value of one `LIGAND_PROPERTIES` entry. -/
structure LigandProps where
  porosity : ℚ
  stability : ℚ
  deriving DecidableEq, Repr

/-- The `METAL_PROPERTIES` dict, as an association list. -/
def METAL_PROPERTIES : List (String × MetalProps) :=
  [("Cu", ⟨1.2, 1.15, 22, 5⟩),
   ("Ni", ⟨1.1, 1.10, 20, 6⟩),
   ("Co", ⟨1.15, 1.12, 21, 5.5⟩),
   ("Zn", ⟨0.95, 1.05, 19, 7⟩),
   ("Fe", ⟨1.05, 1.08, 20.5, 6.5⟩),
   ("Mn", ⟨1.0, 1.06, 19.5, 6.8⟩),
   ("Ag", ⟨1.25, 1.20, 23, 4.5⟩),
   ("Au", ⟨1.18, 1.18, 24, 4.8⟩),
   ("Pd", ⟨1.12, 1.14, 21.5, 5.2⟩),
   ("Pt", ⟨1.22, 1.17, 23.5, 5.0⟩),
   ("Cr", ⟨1.08, 1.09, 20.2, 6.2⟩),
   ("V", ⟨1.06, 1.07, 19.8, 6.5⟩),
   ("Ti", ⟨0.98, 1.04, 18.5, 7.2⟩),
   ("Mo", ⟨1.13, 1.11, 21.8, 5.8⟩),
   ("W", ⟨1.16, 1.13, 22.5, 5.5⟩)]

/-- The default coefficient bundle returned for a metal that is not in
`METAL_PROPERTIES`. -/
def default_metal_props : MetalProps := ⟨1.0, 1.0, 20.0, 6.0⟩

/-- `get_metal_properties(metal)`: the table entry when present,
the default bundle otherwise (`if metal in METAL_PROPERTIES: ... else:
default`).  Total — it never raises. -/
def get_metal_properties (metal : String) : MetalProps :=
  (METAL_PROPERTIES.lookup metal).getD default_metal_props

/-- The `ELECTRODE_PROPERTIES` dict. -/
def ELECTRODE_PROPERTIES : List (String × ElectrodeProps) :=
  [("Nickel Foam", ⟨1.3, 0.8⟩),
   ("Glassy Carbon", ⟨1.0, 1.0⟩),
   ("Carbon Cloth", ⟨1.15, 0.9⟩),
   ("Stainless Steel", ⟨1.1, 1.1⟩)]

/-- The `LIGAND_PROPERTIES` dict. -/
def LIGAND_PROPERTIES : List (String × LigandProps) :=
  [("BDC", ⟨1.1, 1.0⟩),
   ("BTC", ⟨1.2, 1.1⟩),
   ("DOBDC", ⟨1.15, 1.05⟩),
   ("BPDC", ⟨1.05, 0.95⟩),
   ("NDC", ⟨1.08, 1.02⟩),
   ("TPA", ⟨1.12, 1.08⟩)]

/-- Errors a generator call can raise.  A bare Python dict access
`d[k]` on a missing key raises the unlabeled `KeyError`;
`unknownCategoryError` is the labelled configuration error the spec
mandates (the script itself never constructs it). -/
inductive PyError where
  | keyError (key : String)
  | unknownCategoryError (key : String)
  deriving DecidableEq, Repr

/-- Python dict subscription `tbl[k]`: the stored value, or a raised
`KeyError k` when the key is missing. -/
def dictGet {α : Type} (tbl : List (String × α)) (k : String) :
    Except PyError α :=
  match tbl.lookup k with
  | some v => .ok v
  | none => .error (.keyError k)

/-- `true` exactly on a raised `UnknownCategoryError`. -/
def PyError.isConfigError : PyError → Bool
  | .unknownCategoryError _ => true
  | .keyError _ => false

/-- `true` exactly when the computation raised a `KeyError`. -/
def isKeyError {α : Type} : Except PyError α → Bool
  | .error (.keyError _) => true
  | _ => false

/-- `true` exactly when the computation completed without raising. -/
def isOkE {α : Type} : Except PyError α → Bool
  | .ok _ => true
  | _ => false

/-! ## Shared grid helper: `np.linspace` over `ℚ` -/

/-- `np.linspace(a, b, n)` on exact rationals:
`n` evenly spaced points `a + (b - a) * i / (n - 1)`. -/
def linspaceQ (a b : ℚ) (n : ℕ) : List ℚ :=
  (List.range n).map fun (i : ℕ) => a + (b - a) * (i : ℚ) / ((n - 1 : ℕ) : ℚ)

/-! ## Feature encoder (`create_feature_vector`, lines 246-271) -/

/-- `create_feature_vector(params)`: one-hot over `METALS`, normalized
valency, one-hot over `LIGANDS`, three-electrode flag, one-hot over
`ELECTRODES`, MOF flag, in that order. -/
def create_feature_vector (p : MaterialParameters) : List ℚ :=
  (METALS.map fun metal => if p.metal = metal then 1.0 else 0.0)
    ++ [(p.valency : ℚ) / 3.0]
    ++ (LIGANDS.map fun ligand => if p.ligand = ligand then 1.0 else 0.0)
    ++ [if p.assembly = "Three-Electrode" then 1.0 else 0.0]
    ++ (ELECTRODES.map fun electrode =>
          if p.electrode = electrode then 1.0 else 0.0)
    ++ [if p.is_mof then 1.0 else 0.0]

/-! ## Capacity factors (lines 86-95 and 128-135) -/

/-- The GCD generator's `capacity_multiplier` (lines 88-95):
metal factor via `get_metal_properties` (total, with default), then the
fallible `ELECTRODE_PROPERTIES[electrode]` and
`LIGAND_PROPERTIES[ligand]` accesses, the MOF factor and the assembly
factor. -/
def gcd_capacity_multiplier (p : MaterialParameters) : Except PyError ℚ := do
  let metal_factor := (get_metal_properties p.metal).redox_factor
  let e ← dictGet ELECTRODE_PROPERTIES p.electrode
  let l ← dictGet LIGAND_PROPERTIES p.ligand
  let mof_factor : ℚ := if p.is_mof then 1.5 else 1.0
  let assembly_factor : ℚ := if p.assembly = "Three-Electrode" then 1.1 else 1.0
  pure (metal_factor * e.capacity_boost * l.porosity * mof_factor *
    assembly_factor)

/-- The rate-capability generator's `max_capacity` (lines 129-135).
Note the bare `METAL_PROPERTIES[metal]` access on line 130: unlike the
GCD and IES generators it does not go through `get_metal_properties`,
so an unknown metal raises `KeyError`. -/
def rate_max_capacity (p : MaterialParameters) : Except PyError ℚ := do
  let base_capacity : ℚ := 100 * p.valency
  let m ← dictGet METAL_PROPERTIES p.metal
  let e ← dictGet ELECTRODE_PROPERTIES p.electrode
  let l ← dictGet LIGAND_PROPERTIES p.ligand
  let mof_factor : ℚ := if p.is_mof then 1.5 else 1.0
  pure (base_capacity * m.redox_factor * e.capacity_boost * l.porosity *
    mof_factor)

/-- `max_time = (base_capacity * capacity_multiplier) / (current * 60)`
(line 101). -/
def gcd_max_time (base_capacity multiplier current : ℚ) : ℚ :=
  base_capacity * multiplier / (current * 60)

/-- The GCD generator's fixed current densities (line 76). -/
def current_densities_gcd : List ℚ := [0.5, 1.0, 1.5, 2.0, 2.5]

/-! ## Real-valued curve generators

Each generator receives its random draws as an explicit stream
`d : ℕ → ℝ`, consumed at fixed indices in the order the script consumes
the seeded NumPy generator.  `np.clip` is `npClip`. -/

/-- `np.clip(x, lo, hi)` = `min(hi, max(x, lo))`. -/
noncomputable def npClip (x lo hi : ℝ) : ℝ := min hi (max x lo)

/-- `np.linspace` over `ℝ` (used where the result feeds real
arithmetic). -/
noncomputable def linspace (a b : ℝ) (n : ℕ) : List ℝ :=
  (List.range n).map fun (i : ℕ) => a + (b - a) * (i : ℝ) / ((n - 1 : ℕ) : ℝ)

/-- `np.logspace(a, b, n)`: `10 ** linspace(a, b, n)` pointwise. -/
noncomputable def logspace (a b : ℝ) (n : ℕ) : List ℝ :=
  (linspace a b n).map fun x => (10 : ℝ) ^ x

/-- One `{time, voltage}` value of the GCD output dict.  Time points
are exact grid rationals; voltages involve `exp` and noise, hence `ℝ`. -/
structure GCDData where
  time : List ℚ
  voltage : List ℝ

/-- The pre-noise voltage model of line 107:
`V_end + (V_start - V_end) * exp(-t / (max_time / 3))`. -/
noncomputable def gcd_voltage_base (vStart vEnd : ℝ) (maxTime : ℚ) (t : ℝ) :
    ℝ :=
  vEnd + (vStart - vEnd) * Real.exp (-t / ((maxTime : ℝ) / 3))

/-- The loop body of `generate_gcd_curve` for one current density
(lines 100-113).  Draw layout: `d 0` is the `np.random.random()` for
`V_start`, `d 1` the one for `V_end`, `d (2+i)` the Gaussian noise on
voltage point `i`. -/
noncomputable def gcdCurveAt (base_capacity multiplier current : ℚ)
    (d : ℕ → ℝ) : GCDData :=
  let maxTime : ℚ := gcd_max_time base_capacity multiplier current
  let time : List ℚ := linspaceQ 0 maxTime 200
  let vStart : ℝ := 0.9 + 0.1 * d 0
  let vEnd : ℝ := 0.1 + 0.05 * d 1
  { time := time
  , voltage := time.enum.map fun it =>
      gcd_voltage_base vStart vEnd maxTime (it.2 : ℝ) + d (2 + it.1) }

/-- `generate_gcd_curve(params)` (lines 74-115): the fallible
capacity-multiplier computation, then one `{time, voltage}` curve per
current density.  The output dict is the association list keyed by
current density; iteration `i` consumes draws `d (202*i) ..`. -/
noncomputable def generate_gcd_curve (p : MaterialParameters) (d : ℕ → ℝ) :
    Except PyError (List (ℚ × GCDData)) := do
  let multiplier ← gcd_capacity_multiplier p
  pure (current_densities_gcd.enum.map fun ic =>
    (ic.2, gcdCurveAt (100 * p.valency) multiplier ic.2
      (fun j => d (202 * ic.1 + j))))

/-- The rate-capability output record. -/
structure RateData where
  current_density : List ℝ
  specific_capacity : List ℝ

/-- The rate-capability current grid `np.linspace(0.5, 5.0, 10)`
(line 119). -/
noncomputable def rate_current_densities : List ℝ := linspace 0.5 5.0 10

/-- `generate_rate_capability(params)` (lines 117-145): fallible
`max_capacity` (bare metal dict access), then the inverse power law
`max_capacity * (0.5 / c) ** 0.3` plus noise `d i`, clipped to
`[0, max_capacity]`. -/
noncomputable def generate_rate_capability (p : MaterialParameters)
    (d : ℕ → ℝ) : Except PyError RateData := do
  let maxCap ← rate_max_capacity p
  pure { current_density := rate_current_densities
       , specific_capacity := rate_current_densities.enum.map fun ic =>
           npClip ((maxCap : ℝ) * (0.5 / ic.2) ^ (0.3 : ℝ) + d ic.1)
             0 (maxCap : ℝ) }

/-- The IES output record: exact energy grid, real intensities. -/
structure IESData where
  energy : List ℚ
  intensity : List ℝ

/-- The IES energy grid `np.linspace(0, 50, 500)` (line 149). -/
def ies_energy : List ℚ := linspaceQ 0 50 500

/-- `generate_ies_spectrum(params)` (lines 147-179): two Gaussian
peaks centred at the metal's `plasmon_peak` and `d_transition`
coefficients (via the total `get_metal_properties`), a decaying
background, additive noise, then `np.clip(spectrum, 0, None)`.
Draws: `d 0, d 1` perturb the plasmon peak, `d 2, d 3` the
d-transition peak, `d (4+i)` is the noise at energy point `i`. -/
noncomputable def generate_ies_spectrum (p : MaterialParameters)
    (d : ℕ → ℝ) : IESData :=
  let mp := get_metal_properties p.metal
  let plasmon_intensity : ℝ := 0.8 + 0.2 * d 0
  let plasmon_width : ℝ := 2.0 + 0.5 * d 1
  let d_intensity : ℝ := 0.4 + 0.1 * d 2
  let d_width : ℝ := 1.5 + 0.3 * d 3
  { energy := ies_energy
  , intensity := ies_energy.enum.map fun ie =>
      let e : ℝ := (ie.2 : ℝ)
      max 0
        (plasmon_intensity *
            Real.exp (-(((e - (mp.plasmon_peak : ℝ)) / plasmon_width) ^ 2))
          + d_intensity *
            Real.exp (-(((e - (mp.d_transition : ℝ)) / d_width) ^ 2))
          + 0.1 * Real.exp (-e / 30)
          + d (4 + ie.1)) }

/-- The EIS output record. -/
structure EISData where
  z_real : List ℝ
  z_imag : List ℝ
  frequency : List ℝ

/-- The EIS frequency grid `np.logspace(-2, 5, 100)` (line 184). -/
noncomputable def eis_freq : List ℝ := logspace (-2) 5 100

/-- The body of `generate_eis_nyquist` after the electrode lookup
(lines 190-219), given the electrode's `resistance` coefficient.
Draws: `d 0 .. d 4` are the circuit-parameter perturbations, `d (5+i)`
the noise on `z_real` point `i`, `d (105+i)` the noise on `z_imag`
point `i`. -/
noncomputable def eisCore (resistance : ℚ) (d : ℕ → ℝ) : EISData :=
  let R_solution : ℝ := 5 + 2 * d 0
  let R_ct : ℝ := (resistance : ℝ) * (20 + 10 * d 1)
  let CPE_T : ℝ := 0.001 + 0.0005 * d 2
  let CPE_P : ℝ := 0.85 + 0.1 * d 3
  let W : ℝ := 10 + 5 * d 4
  let zTotal : List ℂ := eis_freq.map fun f =>
    let omega : ℝ := 2 * Real.pi * f
    let Z_CPE : ℂ := 1 / ((CPE_T : ℂ) * (Complex.I * (omega : ℂ)) ^ (CPE_P : ℂ))
    let Z_W : ℂ := ((W / Real.sqrt omega : ℝ) : ℂ) * (1 - Complex.I)
    (R_solution : ℂ) + 1 / (1 / (R_ct : ℂ) + 1 / (Z_CPE + Z_W))
  { z_real := zTotal.enum.map fun iz => iz.2.re + d (5 + iz.1)
  , z_imag := zTotal.enum.map fun iz => -iz.2.im + d (105 + iz.1)
  , frequency := eis_freq }

/-- `generate_eis_nyquist(params)` (lines 181-219): the fallible
`ELECTRODE_PROPERTIES[electrode]` access (line 191), then the Randles
circuit computation. -/
noncomputable def generate_eis_nyquist (p : MaterialParameters)
    (d : ℕ → ℝ) : Except PyError EISData := do
  let e ← dictGet ELECTRODE_PROPERTIES p.electrode
  pure (eisCore e.resistance d)

/-! ## Orchestrator (`generate_sample`, lines 221-244) -/

/-- One labelled sample: the drawn inputs plus the four generator
outputs. -/
structure Sample where
  inputs : MaterialParameters
  gcd : Except PyError (List (ℚ × GCDData))
  rate_capability : Except PyError RateData
  ies : IESData
  eis : Except PyError EISData

/-- Number of real draws one sample consumes: the GCD generator uses
`5 * 202`, rate capability `10`, IES `504`, EIS `205`. -/
def drawsPerSample : ℕ := 1729

/-- `generate_sample()`: draw each categorical field independently
(`np.random.choice`, modelled by the integer stream `k` reduced mod
the universe size), then run the four generators on the shared
parameter set, consuming disjoint windows of the real stream `d` in
the script's fixed call order. -/
noncomputable def generate_sample (k : ℕ → ℕ) (d : ℕ → ℝ) : Sample :=
  let params : MaterialParameters :=
    { metal := METALS.getD (k 0 % METALS.length) ""
    , valency := VALENCIES.getD (k 1 % VALENCIES.length) 1
    , ligand := LIGANDS.getD (k 2 % LIGANDS.length) ""
    , assembly := ASSEMBLIES.getD (k 3 % ASSEMBLIES.length) ""
    , electrode := ELECTRODES.getD (k 4 % ELECTRODES.length) ""
    , is_mof := IS_MOF.getD (k 5 % IS_MOF.length) true }
  { inputs := params
  , gcd := generate_gcd_curve params d
  , rate_capability := generate_rate_capability params (fun i => d (1010 + i))
  , ies := generate_ies_spectrum params (fun i => d (1020 + i))
  , eis := generate_eis_nyquist params (fun i => d (1524 + i)) }

/-- The dataset loop of `main` (lines 286-291): `n` samples, each
consuming its own fixed window of the two seeded streams.  The streams
are the model of the NumPy generator seeded with `RANDOM_SEED`: a
fixed seed determines the streams, so the whole dataset is a pure
function of the seed. -/
noncomputable def generateDataset (n : ℕ) (k : ℕ → ℕ) (d : ℕ → ℝ) :
    List Sample :=
  (List.range n).map fun i =>
    generate_sample (fun j => k (6 * i + j))
      (fun j => d (drawsPerSample * i + j))

/-! ## Helper lemmas -/

/-- A successful association-list lookup finds a stored pair. -/
theorem lookup_mem {α : Type} :
    ∀ {tbl : List (String × α)} {k : String} {v : α},
      tbl.lookup k = some v → (k, v) ∈ tbl := by
  intro tbl
  induction tbl with
  | nil => intro k v h; simp [List.lookup] at h
  | cons hd tl ih =>
    intro k v h
    obtain ⟨k', v'⟩ := hd
    rw [List.lookup_cons] at h
    by_cases hk : k = k'
    · subst hk
      simp at h
      exact h ▸ List.mem_cons_self _ _
    · have hbeq : (k == k') = false := beq_false_of_ne hk
      rw [hbeq] at h
      exact List.mem_cons_of_mem _ (ih h)

/-- Every stored `redox_factor` is strictly positive. -/
theorem metal_redox_pos : ∀ pr ∈ METAL_PROPERTIES, 0 < pr.2.redox_factor := by
  norm_num [METAL_PROPERTIES, List.forall_mem_cons]

/-- Every stored `capacity_boost` is strictly positive. -/
theorem electrode_boost_pos :
    ∀ pr ∈ ELECTRODE_PROPERTIES, 0 < pr.2.capacity_boost := by
  norm_num [ELECTRODE_PROPERTIES, List.forall_mem_cons]

/-- Every stored `porosity` is strictly positive. -/
theorem ligand_porosity_pos :
    ∀ pr ∈ LIGAND_PROPERTIES, 0 < pr.2.porosity := by
  norm_num [LIGAND_PROPERTIES, List.forall_mem_cons]

/-- The metal factor used by the GCD generator is strictly positive for
every metal string, known or unknown. -/
theorem get_metal_redox_pos (m : String) :
    0 < (get_metal_properties m).redox_factor := by
  unfold get_metal_properties
  cases hl : METAL_PROPERTIES.lookup m with
  | none => norm_num [default_metal_props]
  | some v => exact metal_redox_pos _ (lookup_mem hl)

/-- Every metal of the universe has a table entry. -/
theorem mem_METALS_lookup :
    ∀ m ∈ METALS, (METAL_PROPERTIES.lookup m).isSome = true := by decide

/-- Every electrode of the universe has a table entry. -/
theorem mem_ELECTRODES_lookup :
    ∀ e ∈ ELECTRODES, (ELECTRODE_PROPERTIES.lookup e).isSome = true := by
  decide

/-- Every ligand of the universe has a table entry. -/
theorem mem_LIGANDS_lookup :
    ∀ l ∈ LIGANDS, (LIGAND_PROPERTIES.lookup l).isSome = true := by decide

/-- Summing a one-hot row over a universe that does not contain the key
gives `0`. -/
theorem oneHot_sum_zero {xs : List String} {x : String} (hx : x ∉ xs) :
    (xs.map fun m => if x = m then (1.0 : ℚ) else 0.0).sum = 0 := by
  induction xs with
  | nil => simp
  | cons a l ih =>
    simp only [List.map_cons, List.sum_cons]
    rw [if_neg (fun h : x = a => hx (by rw [h]; exact List.mem_cons_self a l)),
      ih (fun h => hx (List.mem_cons_of_mem _ h)), add_zero]
    norm_num

/-- Summing a one-hot row over a duplicate-free universe containing the
key gives exactly `1`. -/
theorem oneHot_sum_one {xs : List String} {x : String} (hn : xs.Nodup)
    (hx : x ∈ xs) :
    (xs.map fun m => if x = m then (1.0 : ℚ) else 0.0).sum = 1 := by
  induction xs with
  | nil => cases hx
  | cons a l ih =>
    obtain ⟨ha, hl⟩ := List.nodup_cons.mp hn
    simp only [List.map_cons, List.sum_cons]
    rcases List.mem_cons.mp hx with rfl | hmem
    · rw [if_pos rfl, oneHot_sum_zero ha]
      norm_num
    · rw [if_neg (fun h : x = a => ha (by rw [← h]; exact hmem)), ih hl hmem]
      norm_num

/-- The second component of an `enumFrom` element is a list element. -/
theorem snd_mem_of_mem_enumFrom {α : Type} :
    ∀ {l : List α} {n : ℕ} {p : ℕ × α}, p ∈ l.enumFrom n → p.2 ∈ l := by
  intro l
  induction l with
  | nil => intro n p h; cases h
  | cons a t ih =>
    intro n p h
    rw [List.enumFrom_cons] at h
    rcases List.mem_cons.mp h with rfl | h'
    · exact List.mem_cons_self _ _
    · exact List.mem_cons_of_mem _ (ih h')

/-- The second component of an `enum` element is a list element. -/
theorem snd_mem_of_mem_enum {α : Type} {l : List α} {p : ℕ × α}
    (h : p ∈ l.enum) : p.2 ∈ l :=
  snd_mem_of_mem_enumFrom h

/-- `linspaceQ` produces exactly `n` points. -/
theorem linspaceQ_length (a b : ℚ) (n : ℕ) : (linspaceQ a b n).length = n := by
  rw [linspaceQ, List.length_map, List.length_range]

/-- A nonempty `linspaceQ` grid starts at its left endpoint. -/
theorem linspaceQ_head (a b : ℚ) {n : ℕ} (h : 0 < n) :
    (linspaceQ a b n).head? = some a := by
  obtain ⟨m, rfl⟩ := Nat.exists_eq_succ_of_ne_zero h.ne'
  simp [linspaceQ, List.range_succ_eq_map]

/-- An ascending `linspaceQ` grid is non-decreasing. -/
theorem linspaceQ_chain (a b : ℚ) (n : ℕ) (h : a ≤ b) :
    (linspaceQ a b n).Chain' (· ≤ ·) := by
  unfold linspaceQ
  apply List.Pairwise.chain'
  refine List.Pairwise.map _ (fun i j hij => ?_) (List.pairwise_lt_range n)
  have hi : (i : ℚ) ≤ (j : ℚ) := by exact_mod_cast Nat.le_of_lt hij
  have hba : (0 : ℚ) ≤ b - a := sub_nonneg.mpr h
  have hden : (0 : ℚ) ≤ ((n - 1 : ℕ) : ℚ) := Nat.cast_nonneg _
  gcongr

/-- Clipping to `[0, hi]` with `hi ≥ 0` yields a nonnegative value. -/
theorem npClip_nonneg (x hi : ℝ) (h : 0 ≤ hi) : 0 ≤ npClip x 0 hi :=
  le_min h (le_max_right x 0)

/-- Clipping to `[0, hi]` never exceeds `hi`. -/
theorem npClip_le (x hi : ℝ) : npClip x 0 hi ≤ hi := min_le_left _ _

/-- The metal universe is duplicate-free. -/
theorem METALS_nodup : METALS.Nodup := by decide

/-- The ligand universe is duplicate-free. -/
theorem LIGANDS_nodup : LIGANDS.Nodup := by decide

/-- The electrode universe is duplicate-free. -/
theorem ELECTRODES_nodup : ELECTRODES.Nodup := by decide

/-- `|METALS| = 15`. -/
theorem METALS_length : METALS.length = 15 := rfl

/-- `|LIGANDS| = 6`. -/
theorem LIGANDS_length : LIGANDS.length = 6 := rfl

/-- `|ELECTRODES| = 4`. -/
theorem ELECTRODES_length : ELECTRODES.length = 4 := rfl

/-- Positions 0-14 of the feature vector are the metal one-hot block. -/
theorem feature_vector_metal_block (p : MaterialParameters) :
    (create_feature_vector p).take 15 =
      METALS.map fun metal => if p.metal = metal then (1.0 : ℚ) else 0.0 := by
  rw [create_feature_vector]
  rw [List.take_append_of_le_length (by
    simp [METALS_length, LIGANDS_length, ELECTRODES_length])]
  rw [List.take_append_of_le_length (by
    simp [METALS_length, LIGANDS_length])]
  rw [List.take_append_of_le_length (by
    simp [METALS_length, LIGANDS_length])]
  rw [List.take_append_of_le_length (by simp [METALS_length])]
  rw [List.take_append_of_le_length (by simp [METALS_length])]
  exact List.take_of_length_le (by simp [METALS_length])

/-- Positions 16-21 of the feature vector are the ligand one-hot
block. -/
theorem feature_vector_ligand_block (p : MaterialParameters) :
    ((create_feature_vector p).drop 16).take 6 =
      LIGANDS.map fun ligand => if p.ligand = ligand then (1.0 : ℚ) else 0.0 := by
  rw [create_feature_vector]
  rw [List.drop_append_of_le_length (by
    simp [METALS_length, LIGANDS_length, ELECTRODES_length])]
  rw [List.drop_append_of_le_length (by
    simp [METALS_length, LIGANDS_length])]
  rw [List.drop_append_of_le_length (by
    simp [METALS_length, LIGANDS_length])]
  rw [List.drop_left' (by simp [METALS_length])]
  rw [List.take_append_of_le_length (by
    simp [LIGANDS_length, ELECTRODES_length])]
  rw [List.take_append_of_le_length (by simp [LIGANDS_length])]
  rw [List.take_append_of_le_length (by simp [LIGANDS_length])]
  exact List.take_of_length_le (by simp [LIGANDS_length])

/-- Positions 23-26 of the feature vector are the electrode one-hot
block. -/
theorem feature_vector_electrode_block (p : MaterialParameters) :
    ((create_feature_vector p).drop 23).take 4 =
      ELECTRODES.map fun electrode =>
        if p.electrode = electrode then (1.0 : ℚ) else 0.0 := by
  rw [create_feature_vector]
  rw [List.drop_append_of_le_length (by
    simp [METALS_length, LIGANDS_length, ELECTRODES_length])]
  rw [List.drop_left' (by simp [METALS_length, LIGANDS_length])]
  rw [List.take_append_of_le_length (by simp [ELECTRODES_length])]
  exact List.take_of_length_le (by simp [ELECTRODES_length])

/-- The feature vector always has exactly 28 entries. -/
theorem create_feature_vector_length (p : MaterialParameters) :
    (create_feature_vector p).length = 28 := by
  simp [create_feature_vector, METALS_length, LIGANDS_length,
    ELECTRODES_length]

/-! ## Concrete parameter sets used by scenarios -/

/-- The spec's §8 scenario input: `Cu(II)-BDC` MOF on nickel foam in a
two-electrode assembly. -/
def cuParams : MaterialParameters :=
  { metal := "Cu", valency := 2, ligand := "BDC",
    assembly := "Two-Electrode", electrode := "Nickel Foam", is_mof := true }

/-- The spec's unknown-metal scenario input: metal `"Xx"` (absent from
`METAL_PROPERTIES`) with otherwise valid fields. -/
def xxParams : MaterialParameters :=
  { metal := "Xx", valency := 1, ligand := "BTC",
    assembly := "Two-Electrode", electrode := "Glassy Carbon",
    is_mof := false }

/-- A parameter set whose ligand `"XYZ"` is outside the ligand
universe, all other fields valid. -/
def badLigandParams : MaterialParameters :=
  { metal := "Cu", valency := 2, ligand := "XYZ",
    assembly := "Two-Electrode", electrode := "Nickel Foam",
    is_mof := true }

/-- A parameter set with all three categorical fields outside their
universes. -/
def outsideParams : MaterialParameters :=
  { metal := "Xx", valency := 2, ligand := "QQQ",
    assembly := "Two-Electrode", electrode := "Copper Mesh",
    is_mof := false }

/-- `linspace` produces exactly `n` points. -/
theorem linspace_length (a b : ℝ) (n : ℕ) : (linspace a b n).length = n := by
  rw [linspace, List.length_map, List.length_range]

/-- `logspace` produces exactly `n` points. -/
theorem logspace_length (a b : ℝ) (n : ℕ) : (logspace a b n).length = n := by
  rw [logspace, List.length_map, linspace_length]

/-- A `linspaceQ` grid with at least two points ends at its right
endpoint. -/
theorem linspaceQ_getLast (a b : ℚ) {n : ℕ} (h : 2 ≤ n) :
    (linspaceQ a b n).getLast? = some b := by
  obtain ⟨m, rfl⟩ : ∃ m, n = m + 1 := ⟨n - 1, by omega⟩
  unfold linspaceQ
  rw [List.range_succ, List.map_append, List.map_cons, List.map_nil,
    List.getLast?_concat]
  have hm : (1 : ℕ) ≤ m := by omega
  have hm0 : ((m : ℚ)) ≠ 0 := by
    exact_mod_cast Nat.one_le_iff_ne_zero.mp hm
  rw [Nat.add_sub_cancel]
  field_simp

/-- Every valency of the universe is strictly positive. -/
theorem valencies_pos : ∀ v ∈ VALENCIES, 0 < v := by decide

/-- Every GCD current density is strictly positive. -/
theorem gcd_currents_pos : ∀ c ∈ current_densities_gcd, 0 < c := by
  norm_num [current_densities_gcd, List.forall_mem_cons]

/-! ## Except-propagation helpers -/

/-- A raised error propagates through `bind`. -/
theorem except_error_bind {α β : Type} (err : PyError)
    (f : α → Except PyError β) :
    ((Except.error err : Except PyError α) >>= f) = .error err := rfl

/-- `bind` on a successful computation applies the continuation. -/
theorem except_ok_bind {α β : Type} (a : α) (f : α → Except PyError β) :
    ((Except.ok a : Except PyError α) >>= f) = f a := rfl

/-- A `KeyError` in the first step makes the whole `do`-block a
`KeyError`. -/
theorem isKeyError_bind {α β : Type} {e : Except PyError α}
    {f : α → Except PyError β} (h : isKeyError e = true) :
    isKeyError (e >>= f) = true := by
  cases e with
  | error err =>
    cases err with
    | keyError k => rfl
    | unknownCategoryError k => simp [isKeyError] at h
  | ok a => simp [isKeyError] at h

/-- An out-of-universe ligand or electrode makes the GCD capacity
multiplier raise a `KeyError`. -/
theorem gcdMult_keyError_of_bad (p : MaterialParameters)
    (h : LIGAND_PROPERTIES.lookup p.ligand = none ∨
      ELECTRODE_PROPERTIES.lookup p.electrode = none) :
    isKeyError (gcd_capacity_multiplier p) = true := by
  unfold gcd_capacity_multiplier dictGet
  cases he : ELECTRODE_PROPERTIES.lookup p.electrode with
  | none => rfl
  | some e =>
    have hl : LIGAND_PROPERTIES.lookup p.ligand = none := by
      rcases h with hl | he2
      · exact hl
      · rw [he] at he2; exact absurd he2 (by simp)
    simp only [hl]
    rfl

/-- An out-of-universe ligand or electrode makes the rate-capability
`max_capacity` raise a `KeyError` (whatever the metal does). -/
theorem rateCap_keyError_of_bad (p : MaterialParameters)
    (h : LIGAND_PROPERTIES.lookup p.ligand = none ∨
      ELECTRODE_PROPERTIES.lookup p.electrode = none) :
    isKeyError (rate_max_capacity p) = true := by
  unfold rate_max_capacity dictGet
  cases hm : METAL_PROPERTIES.lookup p.metal with
  | none => rfl
  | some mp =>
    cases he : ELECTRODE_PROPERTIES.lookup p.electrode with
    | none => rfl
    | some e =>
      have hl : LIGAND_PROPERTIES.lookup p.ligand = none := by
        rcases h with hl | he2
        · exact hl
        · rw [he] at he2; exact absurd he2 (by simp)
      simp only [hl]
      rfl

/-- Structural properties of one GCD curve: the time grid starts at 0,
is non-decreasing, and matches the voltage trace in length. -/
theorem gcdCurveAt_props (base multiplier current : ℚ) (d : ℕ → ℝ)
    (hb : 0 ≤ base) (hm : 0 ≤ multiplier) (hc : 0 < current) :
    (gcdCurveAt base multiplier current d).time.head? = some 0 ∧
    (gcdCurveAt base multiplier current d).time.Chain' (· ≤ ·) ∧
    (gcdCurveAt base multiplier current d).time.length =
      (gcdCurveAt base multiplier current d).voltage.length := by
  have ht : (gcdCurveAt base multiplier current d).time =
      linspaceQ 0 (gcd_max_time base multiplier current) 200 := rfl
  have hmt : 0 ≤ gcd_max_time base multiplier current := by
    unfold gcd_max_time
    exact div_nonneg (mul_nonneg hb hm) (mul_pos hc (by norm_num)).le
  refine ⟨?_, ?_, ?_⟩
  · rw [ht]
    exact linspaceQ_head _ _ (by norm_num)
  · rw [ht]
    exact linspaceQ_chain _ _ _ hmt
  · show _ = ((gcdCurveAt base multiplier current d).time.enum.map _).length
    rw [List.length_map, List.enum_length]

/-- Head of an indexed map: if `l` starts with `a`, then
`l.enum.map g` starts with `g (0, a)`. -/
theorem head?_enum_map {α β : Type} (l : List α) (g : ℕ × α → β) (a : α)
    (h : l.head? = some a) : (l.enum.map g).head? = some (g (0, a)) := by
  cases l with
  | nil => simp at h
  | cons x xs =>
    have hx : x = a := by simpa using h
    subst hx
    rfl

/-- At time 0 the pre-noise voltage model returns exactly the start
voltage (`exp 0 = 1`). -/
theorem gcd_voltage_base_zero (vS vE : ℝ) (maxT : ℚ) :
    gcd_voltage_base vS vE maxT 0 = vS := by
  unfold gcd_voltage_base
  rw [neg_zero, zero_div, Real.exp_zero]
  ring

/-- The first voltage sample of a GCD curve is the pre-noise start
voltage at time 0 plus the first noise draw. -/
theorem gcdCurveAt_voltage_head (base multiplier current : ℚ) (d : ℕ → ℝ) :
    (gcdCurveAt base multiplier current d).voltage.head? =
      some (gcd_voltage_base (0.9 + 0.1 * d 0) (0.1 + 0.05 * d 1)
        (gcd_max_time base multiplier current) 0 + d 2) := by
  have hv : (gcdCurveAt base multiplier current d).voltage =
      (linspaceQ 0 (gcd_max_time base multiplier current) 200).enum.map
        (fun it => gcd_voltage_base (0.9 + 0.1 * d 0) (0.1 + 0.05 * d 1)
          (gcd_max_time base multiplier current) ((it.2 : ℚ) : ℝ) +
          d (2 + it.1)) := rfl
  rw [hv, head?_enum_map _ _ 0 (linspaceQ_head 0 _ (by norm_num))]
  norm_num

/-! ## Claim theorems -/

/-- C1 (code-bug exhibit): for the unknown metal `"Xx"`,
`get_metal_properties` does return the documented default bundle and
the GCD generator completes successfully on those defaults (with the
spec's multiplier 1.0 × 1.0 × 1.2 × 1.0 × 1.0 = 1.2), but the
rate-capability generator raises `KeyError "Xx"`, because line 130
accesses `METAL_PROPERTIES[metal]` directly instead of calling
`get_metal_properties`.  The claim that all three metal-consuming
generators complete on the default coefficients is therefore false of
the code. -/
theorem C1_rate_bypasses_default :
    get_metal_properties "Xx" = default_metal_props ∧
    gcd_capacity_multiplier xxParams = .ok 1.2 ∧
    isOkE (generate_gcd_curve xxParams (fun _ => 0)) = true ∧
    (generate_ies_spectrum xxParams (fun _ => 0)).energy.length = 500 ∧
    rate_max_capacity xxParams = .error (.keyError "Xx") ∧
    isKeyError (generate_rate_capability xxParams (fun _ => 0)) = true := by
  refine ⟨rfl, ?_, rfl, ?_, rfl, rfl⟩
  · have h1 : gcd_capacity_multiplier xxParams =
        .ok ((1.0 : ℚ) * 1.0 * 1.2 * 1.0 * 1.0) := rfl
    rw [h1]
    norm_num
  · have h2 : (generate_ies_spectrum xxParams (fun _ => 0)).energy =
        ies_energy := rfl
    rw [h2, ies_energy]
    exact linspaceQ_length 0 50 500

/-- C2 (counterexample): at a parameter set whose ligand `"XYZ"` is
outside the ligand universe, the GCD and rate-capability generators
raise the unlabeled lookup error `KeyError "XYZ"`, which is not an
`UnknownCategoryError` — the claimed clearly-identified configuration
error is never produced. -/
theorem C2_counterexample :
    generate_gcd_curve badLigandParams (fun _ => 0) =
      .error (.keyError "XYZ") ∧
    generate_rate_capability badLigandParams (fun _ => 0) =
      .error (.keyError "XYZ") ∧
    (PyError.keyError "XYZ").isConfigError = false :=
  ⟨rfl, rfl, rfl⟩

/-- C2 (amended): for every `MaterialParameters` whose ligand or
electrode is outside the fixed enumerated set, a generator call that
looks up that field (the GCD and rate-capability generators) fails
with the unlabeled lookup error `KeyError`; no `UnknownCategoryError`
exists in the code. -/
theorem C2_unknown_category_keyerror (p : MaterialParameters) (d : ℕ → ℝ)
    (h : LIGAND_PROPERTIES.lookup p.ligand = none ∨
      ELECTRODE_PROPERTIES.lookup p.electrode = none) :
    isKeyError (generate_gcd_curve p d) = true ∧
    isKeyError (generate_rate_capability p d) = true := by
  constructor
  · unfold generate_gcd_curve
    exact isKeyError_bind (gcdMult_keyError_of_bad p h)
  · unfold generate_rate_capability
    exact isKeyError_bind (rateCap_keyError_of_bad p h)

/-- Witness for the amended C2 at the concrete bad-ligand input. -/
theorem C2_unknown_category_keyerror_witness :
    (LIGAND_PROPERTIES.lookup badLigandParams.ligand = none ∨
      ELECTRODE_PROPERTIES.lookup badLigandParams.electrode = none) ∧
    (isKeyError (generate_gcd_curve badLigandParams (fun _ => 0)) = true ∧
      isKeyError (generate_rate_capability badLigandParams (fun _ => 0)) =
        true) :=
  ⟨Or.inl rfl,
    C2_unknown_category_keyerror badLigandParams (fun _ => 0) (Or.inl rfl)⟩

/-- C3: the dataset-generation pipeline is a deterministic pure
function of the random streams it consumes, and the streams are fully
determined by the seed (the NumPy generator seeded with `RANDOM_SEED`
is deterministic): two runs given the same streams produce identical
sample sequences, hence identical serialized output. -/
theorem C3_determinism (n : ℕ) (k₁ k₂ : ℕ → ℕ) (d₁ d₂ : ℕ → ℝ)
    (hk : k₁ = k₂) (hd : d₁ = d₂) :
    generateDataset n k₁ d₁ = generateDataset n k₂ d₂ := by
  rw [hk, hd]

/-- Witness for C3: two three-sample runs on the constant-zero streams
coincide. -/
theorem C3_determinism_witness :
    ((fun _ : ℕ => (0 : ℕ)) = (fun _ : ℕ => (0 : ℕ)) ∧
      (fun _ : ℕ => (0 : ℝ)) = (fun _ : ℕ => (0 : ℝ))) ∧
    generateDataset 3 (fun _ => 0) (fun _ => 0) =
      generateDataset 3 (fun _ => 0) (fun _ => 0) :=
  ⟨⟨rfl, rfl⟩, C3_determinism 3 _ _ _ _ rfl rfl⟩

/-- C6: for every parameter set — metal known or unknown — every IES
intensity value is nonnegative, and the energy grid is the fixed
`linspace(0, 50, 500)`: 500 points running from 0 to 50. -/
theorem C6_ies_nonneg (p : MaterialParameters) (d : ℕ → ℝ) :
    (∀ x ∈ (generate_ies_spectrum p d).intensity, 0 ≤ x) ∧
    (generate_ies_spectrum p d).energy = linspaceQ 0 50 500 ∧
    (generate_ies_spectrum p d).energy.length = 500 ∧
    (generate_ies_spectrum p d).energy.head? = some 0 ∧
    (generate_ies_spectrum p d).energy.getLast? = some 50 := by
  have he : (generate_ies_spectrum p d).energy = ies_energy := rfl
  refine ⟨?_, rfl, ?_, ?_, ?_⟩
  · intro x hx
    simp only [generate_ies_spectrum] at hx
    obtain ⟨ie, hie, rfl⟩ := List.mem_map.mp hx
    exact le_max_left 0 _
  · rw [he, ies_energy]
    exact linspaceQ_length 0 50 500
  · rw [he, ies_energy]
    exact linspaceQ_head 0 50 (by norm_num)
  · rw [he, ies_energy]
    exact linspaceQ_getLast 0 50 (by norm_num)

/-- C4: for every `MaterialParameters` drawn from the fixed category
universes, `create_feature_vector` returns a sequence of constant
length 28 = |METALS| + |LIGANDS| + |ELECTRODES| + 3, and the metal,
ligand and electrode one-hot blocks of the returned vector each sum to
exactly 1.  (The encoder is a plain function of `p`, hence
deterministic and pure.) -/
theorem C4_encoder_shape (p : MaterialParameters) (hm : p.metal ∈ METALS)
    (hl : p.ligand ∈ LIGANDS) (he : p.electrode ∈ ELECTRODES) :
    (create_feature_vector p).length = 28 ∧
    ((create_feature_vector p).take 15).sum = 1 ∧
    (((create_feature_vector p).drop 16).take 6).sum = 1 ∧
    (((create_feature_vector p).drop 23).take 4).sum = 1 := by
  refine ⟨create_feature_vector_length p, ?_, ?_, ?_⟩
  · rw [feature_vector_metal_block]
    exact oneHot_sum_one METALS_nodup hm
  · rw [feature_vector_ligand_block]
    exact oneHot_sum_one LIGANDS_nodup hl
  · rw [feature_vector_electrode_block]
    exact oneHot_sum_one ELECTRODES_nodup he

/-- Witness for C4 at the concrete valid input `cuParams`. -/
theorem C4_encoder_shape_witness :
    (cuParams.metal ∈ METALS ∧ cuParams.ligand ∈ LIGANDS ∧
      cuParams.electrode ∈ ELECTRODES) ∧
    ((create_feature_vector cuParams).length = 28 ∧
      ((create_feature_vector cuParams).take 15).sum = 1 ∧
      (((create_feature_vector cuParams).drop 16).take 6).sum = 1 ∧
      (((create_feature_vector cuParams).drop 23).take 4).sum = 1) :=
  ⟨⟨by decide, by decide, by decide⟩,
    C4_encoder_shape cuParams (by decide) (by decide) (by decide)⟩

/-- C10: the encoder is total over arbitrary string-valued categorical
fields — it always returns a vector of length 28, and the one-hot
block of a category whose value is outside its universe is all zeros
(its sum is 0 rather than 1). -/
theorem C10_encoder_unknown (p : MaterialParameters) :
    (create_feature_vector p).length = 28 ∧
    (p.metal ∉ METALS → ((create_feature_vector p).take 15).sum = 0) ∧
    (p.ligand ∉ LIGANDS →
      (((create_feature_vector p).drop 16).take 6).sum = 0) ∧
    (p.electrode ∉ ELECTRODES →
      (((create_feature_vector p).drop 23).take 4).sum = 0) := by
  refine ⟨create_feature_vector_length p, fun hm => ?_, fun hl => ?_,
    fun he => ?_⟩
  · rw [feature_vector_metal_block]
    exact oneHot_sum_zero hm
  · rw [feature_vector_ligand_block]
    exact oneHot_sum_zero hl
  · rw [feature_vector_electrode_block]
    exact oneHot_sum_zero he

/-- C5: for every valid `MaterialParameters`, every specific-capacity
value produced by the rate-capability generator lies in
`[0, max_capacity]`, where
`max_capacity = 100 * valency * redox_factor * capacity_boost *
porosity * (1.5 if is_mof else 1.0)` is computed from the same inputs
(no assembly factor). -/
theorem C5_rate_clamped (p : MaterialParameters) (d : ℕ → ℝ)
    (hm : p.metal ∈ METALS) (hv : p.valency ∈ VALENCIES)
    (hl : p.ligand ∈ LIGANDS) (he : p.electrode ∈ ELECTRODES) :
    ∃ mp ep lp,
      METAL_PROPERTIES.lookup p.metal = some mp ∧
      ELECTRODE_PROPERTIES.lookup p.electrode = some ep ∧
      LIGAND_PROPERTIES.lookup p.ligand = some lp ∧
      ∃ r, generate_rate_capability p d = .ok r ∧
        r.current_density = rate_current_densities ∧
        ∀ x ∈ r.specific_capacity,
          0 ≤ x ∧
          x ≤ ((100 * (p.valency : ℚ) * mp.redox_factor *
            ep.capacity_boost * lp.porosity *
            (if p.is_mof then 1.5 else 1.0) : ℚ) : ℝ) := by
  obtain ⟨mp, hmp⟩ := Option.isSome_iff_exists.mp (mem_METALS_lookup _ hm)
  obtain ⟨ep, hep⟩ := Option.isSome_iff_exists.mp (mem_ELECTRODES_lookup _ he)
  obtain ⟨lp, hlp⟩ := Option.isSome_iff_exists.mp (mem_LIGANDS_lookup _ hl)
  have hcap : rate_max_capacity p =
      .ok (100 * (p.valency : ℚ) * mp.redox_factor * ep.capacity_boost *
        lp.porosity * (if p.is_mof then 1.5 else 1.0)) := by
    unfold rate_max_capacity dictGet
    simp only [hmp, hep, hlp]
    rfl
  have hMpos : (0 : ℚ) < 100 * (p.valency : ℚ) * mp.redox_factor *
      ep.capacity_boost * lp.porosity * (if p.is_mof then 1.5 else 1.0) := by
    have hv1 : 0 < p.valency := valencies_pos _ hv
    have hvq : (0 : ℚ) < (p.valency : ℚ) := by exact_mod_cast hv1
    have h1 := metal_redox_pos _ (lookup_mem hmp)
    have h2 := electrode_boost_pos _ (lookup_mem hep)
    have h3 := ligand_porosity_pos _ (lookup_mem hlp)
    have hmof : (0 : ℚ) < if p.is_mof then 1.5 else 1.0 := by
      split <;> norm_num
    exact mul_pos (mul_pos (mul_pos (mul_pos
      (mul_pos (by norm_num) hvq) h1) h2) h3) hmof
  refine ⟨mp, ep, lp, hmp, hep, hlp, ?_⟩
  have hg : generate_rate_capability p d = .ok
      { current_density := rate_current_densities
      , specific_capacity := rate_current_densities.enum.map fun ic =>
          npClip (((100 * (p.valency : ℚ) * mp.redox_factor *
              ep.capacity_boost * lp.porosity *
              (if p.is_mof then 1.5 else 1.0) : ℚ) : ℝ) *
              (0.5 / ic.2) ^ (0.3 : ℝ) + d ic.1)
            0 ((100 * (p.valency : ℚ) * mp.redox_factor *
              ep.capacity_boost * lp.porosity *
              (if p.is_mof then 1.5 else 1.0) : ℚ) : ℝ) } := by
    unfold generate_rate_capability
    rw [hcap]
    rfl
  refine ⟨_, hg, rfl, ?_⟩
  intro x hx
  obtain ⟨ic, hic, rfl⟩ := List.mem_map.mp hx
  have hMR : (0 : ℝ) ≤ ((100 * (p.valency : ℚ) * mp.redox_factor *
      ep.capacity_boost * lp.porosity *
      (if p.is_mof then 1.5 else 1.0) : ℚ) : ℝ) := by
    exact_mod_cast hMpos.le
  exact ⟨npClip_nonneg _ _ hMR, npClip_le _ _⟩

/-- C7: the spec's Cu(II)-BDC / nickel-foam / MOF / two-electrode
scenario.  The GCD multiplier is 1.2 × 1.3 × 1.1 × 1.5 × 1.0 = 2.574,
the pre-noise `max_time` at current density 0.5 is
(100 × 2 × 2.574) / (0.5 × 60) = 17.16, the first output entry is the
curve at 0.5 with `time[0] = 0`, and its first voltage sample is the
pre-noise start voltage `0.9 + 0.1·u ∈ [0.9, 1.0)` plus the first
noise draw. -/
theorem C7_cu_scenario (d : ℕ → ℝ) (h0 : 0 ≤ d 0) (h1 : d 0 < 1) :
    gcd_capacity_multiplier cuParams = .ok 2.574 ∧
    gcd_max_time (100 * 2) 2.574 0.5 = 17.16 ∧
    gcd_max_time (100 * (cuParams.valency : ℚ))
      ((1.2 : ℚ) * 1.3 * 1.1 * 1.5 * 1.0) 0.5 = 17.16 ∧
    ∃ curves, generate_gcd_curve cuParams d = .ok curves ∧
      ∃ c, curves.head? = some c ∧ c.1 = 0.5 ∧
        c.2.time.head? = some 0 ∧
        c.2.voltage.head? = some (gcd_voltage_base (0.9 + 0.1 * d 0)
          (0.1 + 0.05 * d 1)
          (gcd_max_time (100 * (cuParams.valency : ℚ))
            ((1.2 : ℚ) * 1.3 * 1.1 * 1.5 * 1.0) 0.5) 0 + d 2) ∧
        gcd_voltage_base (0.9 + 0.1 * d 0) (0.1 + 0.05 * d 1)
          (gcd_max_time (100 * (cuParams.valency : ℚ))
            ((1.2 : ℚ) * 1.3 * 1.1 * 1.5 * 1.0) 0.5) 0 = 0.9 + 0.1 * d 0 ∧
        0.9 ≤ 0.9 + 0.1 * d 0 ∧ 0.9 + 0.1 * d 0 < 1 := by
  have hmult : gcd_capacity_multiplier cuParams =
      .ok ((1.2 : ℚ) * 1.3 * 1.1 * 1.5 * 1.0) := rfl
  refine ⟨?_, ?_, ?_, ?_⟩
  · rw [hmult]
    norm_num
  · unfold gcd_max_time
    norm_num
  · unfold gcd_max_time
    have : (cuParams.valency : ℚ) = 2 := rfl
    rw [this]
    norm_num
  · have hg : generate_gcd_curve cuParams d = .ok
        (current_densities_gcd.enum.map fun ic =>
          (ic.2, gcdCurveAt (100 * (cuParams.valency : ℚ))
            ((1.2 : ℚ) * 1.3 * 1.1 * 1.5 * 1.0) ic.2
            (fun j => d (202 * ic.1 + j)))) := by
      unfold generate_gcd_curve
      rw [hmult]
      rfl
    refine ⟨_, hg, ?_⟩
    refine ⟨((0.5 : ℚ), gcdCurveAt (100 * (cuParams.valency : ℚ))
      ((1.2 : ℚ) * 1.3 * 1.1 * 1.5 * 1.0) 0.5
      (fun j => d (202 * 0 + j))), rfl, rfl, ?_, ?_, ?_, ?_, ?_⟩
    · have ht : (gcdCurveAt (100 * (cuParams.valency : ℚ))
          ((1.2 : ℚ) * 1.3 * 1.1 * 1.5 * 1.0) 0.5
          (fun j => d (202 * 0 + j))).time =
          linspaceQ 0 (gcd_max_time (100 * (cuParams.valency : ℚ))
            ((1.2 : ℚ) * 1.3 * 1.1 * 1.5 * 1.0) 0.5) 200 := rfl
      rw [ht]
      exact linspaceQ_head _ _ (by norm_num)
    · rw [gcdCurveAt_voltage_head]
    · exact gcd_voltage_base_zero _ _ _
    · have hd0 : 0 ≤ 0.1 * d 0 := by
        have : (0 : ℝ) ≤ 0.1 := by norm_num
        exact mul_nonneg this h0
      linarith
    · have hd1 : (0.1 : ℝ) * d 0 < 0.1 * 1 :=
        mul_lt_mul_of_pos_left h1 (by norm_num)
      linarith

/-- Witness for C7 at the all-zero draw stream. -/
theorem C7_cu_scenario_witness :
    ((0 : ℝ) ≤ (fun _ : ℕ => (0 : ℝ)) 0 ∧ (fun _ : ℕ => (0 : ℝ)) 0 < 1) ∧
    (gcd_capacity_multiplier cuParams = .ok 2.574 ∧
      gcd_max_time (100 * 2) 2.574 0.5 = 17.16 ∧
      gcd_max_time (100 * (cuParams.valency : ℚ))
        ((1.2 : ℚ) * 1.3 * 1.1 * 1.5 * 1.0) 0.5 = 17.16 ∧
      ∃ curves,
        generate_gcd_curve cuParams (fun _ : ℕ => (0 : ℝ)) = .ok curves ∧
        ∃ c, curves.head? = some c ∧ c.1 = 0.5 ∧
          c.2.time.head? = some 0 ∧
          c.2.voltage.head? = some (gcd_voltage_base
            (0.9 + 0.1 * (fun _ : ℕ => (0 : ℝ)) 0)
            (0.1 + 0.05 * (fun _ : ℕ => (0 : ℝ)) 1)
            (gcd_max_time (100 * (cuParams.valency : ℚ))
              ((1.2 : ℚ) * 1.3 * 1.1 * 1.5 * 1.0) 0.5) 0 +
            (fun _ : ℕ => (0 : ℝ)) 2) ∧
          gcd_voltage_base (0.9 + 0.1 * (fun _ : ℕ => (0 : ℝ)) 0)
            (0.1 + 0.05 * (fun _ : ℕ => (0 : ℝ)) 1)
            (gcd_max_time (100 * (cuParams.valency : ℚ))
              ((1.2 : ℚ) * 1.3 * 1.1 * 1.5 * 1.0) 0.5) 0 =
            0.9 + 0.1 * (fun _ : ℕ => (0 : ℝ)) 0 ∧
          0.9 ≤ 0.9 + 0.1 * (fun _ : ℕ => (0 : ℝ)) 0 ∧
          0.9 + 0.1 * (fun _ : ℕ => (0 : ℝ)) 0 < 1) :=
  ⟨⟨le_refl 0, by norm_num⟩,
    C7_cu_scenario (fun _ => 0) (le_refl 0) (by norm_num)⟩

/-- C8: for every valid `MaterialParameters`, the GCD generator
returns one entry per fixed current density (all positive); each
entry's time sequence starts at 0 and is non-decreasing, and its time
and voltage sequences have equal length. -/
theorem C8_gcd_time_monotone (p : MaterialParameters) (d : ℕ → ℝ)
    (hl : p.ligand ∈ LIGANDS) (he : p.electrode ∈ ELECTRODES) :
    ∃ curves, generate_gcd_curve p d = .ok curves ∧
      curves.length = 5 ∧
      curves.map Prod.fst = current_densities_gcd ∧
      ∀ c ∈ curves,
        c.2.time.head? = some 0 ∧
        c.2.time.Chain' (· ≤ ·) ∧
        c.2.time.length = c.2.voltage.length := by
  obtain ⟨ep, hep⟩ := Option.isSome_iff_exists.mp (mem_ELECTRODES_lookup _ he)
  obtain ⟨lp, hlp⟩ := Option.isSome_iff_exists.mp (mem_LIGANDS_lookup _ hl)
  have hmult : gcd_capacity_multiplier p = .ok
      ((get_metal_properties p.metal).redox_factor * ep.capacity_boost *
        lp.porosity * (if p.is_mof then 1.5 else 1.0) *
        (if p.assembly = "Three-Electrode" then 1.1 else 1.0)) := by
    unfold gcd_capacity_multiplier dictGet
    simp only [hep, hlp]
    rfl
  have hg : generate_gcd_curve p d = .ok
      (current_densities_gcd.enum.map fun ic =>
        (ic.2, gcdCurveAt (100 * (p.valency : ℚ))
          ((get_metal_properties p.metal).redox_factor * ep.capacity_boost *
            lp.porosity * (if p.is_mof then 1.5 else 1.0) *
            (if p.assembly = "Three-Electrode" then 1.1 else 1.0)) ic.2
          (fun j => d (202 * ic.1 + j)))) := by
    unfold generate_gcd_curve
    rw [hmult]
    rfl
  refine ⟨_, hg, ?_, ?_, ?_⟩
  · rw [List.length_map, List.enum_length]
    rfl
  · rw [List.map_map]
    exact List.enumFrom_map_snd 0 current_densities_gcd
  · intro c hc
    obtain ⟨ic, hic, rfl⟩ := List.mem_map.mp hc
    have hcur : 0 < ic.2 := gcd_currents_pos _ (snd_mem_of_mem_enum hic)
    have hbase : (0 : ℚ) ≤ 100 * (p.valency : ℚ) := by positivity
    have hmul : (0 : ℚ) ≤
        (get_metal_properties p.metal).redox_factor * ep.capacity_boost *
          lp.porosity * (if p.is_mof then 1.5 else 1.0) *
          (if p.assembly = "Three-Electrode" then 1.1 else 1.0) := by
      have h1 := get_metal_redox_pos p.metal
      have h2 := electrode_boost_pos _ (lookup_mem hep)
      have h3 := ligand_porosity_pos _ (lookup_mem hlp)
      have hmof : (0 : ℚ) < if p.is_mof then 1.5 else 1.0 := by
        split <;> norm_num
      have hasm : (0 : ℚ) <
          if p.assembly = "Three-Electrode" then 1.1 else 1.0 := by
        split <;> norm_num
      exact (mul_pos (mul_pos (mul_pos (mul_pos h1 h2) h3) hmof) hasm).le
    exact gcdCurveAt_props _ _ _ _ hbase hmul hcur

/-- Witness for C8 at the concrete valid input `cuParams`. -/
theorem C8_gcd_time_monotone_witness :
    (cuParams.ligand ∈ LIGANDS ∧ cuParams.electrode ∈ ELECTRODES) ∧
    (∃ curves, generate_gcd_curve cuParams (fun _ => 0) = .ok curves ∧
      curves.length = 5 ∧
      curves.map Prod.fst = current_densities_gcd ∧
      ∀ c ∈ curves,
        c.2.time.head? = some 0 ∧
        c.2.time.Chain' (· ≤ ·) ∧
        c.2.time.length = c.2.voltage.length) :=
  ⟨⟨by decide, by decide⟩,
    C8_gcd_time_monotone cuParams (fun _ => 0) (by decide) (by decide)⟩

/-- Witness for C5 at the concrete valid input `cuParams`. -/
theorem C5_rate_clamped_witness :
    (cuParams.metal ∈ METALS ∧ cuParams.valency ∈ VALENCIES ∧
      cuParams.ligand ∈ LIGANDS ∧ cuParams.electrode ∈ ELECTRODES) ∧
    (∃ mp ep lp,
      METAL_PROPERTIES.lookup cuParams.metal = some mp ∧
      ELECTRODE_PROPERTIES.lookup cuParams.electrode = some ep ∧
      LIGAND_PROPERTIES.lookup cuParams.ligand = some lp ∧
      ∃ r, generate_rate_capability cuParams (fun _ => 0) = .ok r ∧
        r.current_density = rate_current_densities ∧
        ∀ x ∈ r.specific_capacity,
          0 ≤ x ∧
          x ≤ ((100 * (cuParams.valency : ℚ) * mp.redox_factor *
            ep.capacity_boost * lp.porosity *
            (if cuParams.is_mof then 1.5 else 1.0) : ℚ) : ℝ)) :=
  ⟨⟨by decide, by decide, by decide, by decide⟩,
    C5_rate_clamped cuParams (fun _ => 0) (by decide) (by decide)
      (by decide) (by decide)⟩

/-- C9: for every valid `MaterialParameters`, the EIS generator
returns `z_real`, `z_imag` and `frequency` sequences of equal length,
with the frequency grid the fixed logarithmic 100-point sweep
`logspace(-2, 5, 100)`. -/
theorem C9_eis_lengths (p : MaterialParameters) (d : ℕ → ℝ)
    (he : p.electrode ∈ ELECTRODES) :
    ∃ r, generate_eis_nyquist p d = .ok r ∧
      r.frequency = logspace (-2) 5 100 ∧
      r.frequency.length = 100 ∧
      r.z_real.length = r.frequency.length ∧
      r.z_imag.length = r.frequency.length := by
  obtain ⟨ep, hep⟩ := Option.isSome_iff_exists.mp (mem_ELECTRODES_lookup _ he)
  have hg : generate_eis_nyquist p d = .ok (eisCore ep.resistance d) := by
    unfold generate_eis_nyquist dictGet
    simp only [hep]
    rfl
  have hf : (eisCore ep.resistance d).frequency = eis_freq := rfl
  refine ⟨_, hg, ?_, ?_, ?_, ?_⟩
  · rw [hf, eis_freq]
  · rw [hf, eis_freq]
    exact logspace_length _ _ _
  · show ((eis_freq.map _).enum.map _).length = _
    rw [List.length_map, List.enum_length, List.length_map, hf]
  · show ((eis_freq.map _).enum.map _).length = _
    rw [List.length_map, List.enum_length, List.length_map, hf]

/-- Witness for C9 at the concrete valid input `cuParams`. -/
theorem C9_eis_lengths_witness :
    cuParams.electrode ∈ ELECTRODES ∧
    (∃ r, generate_eis_nyquist cuParams (fun _ => 0) = .ok r ∧
      r.frequency = logspace (-2) 5 100 ∧
      r.frequency.length = 100 ∧
      r.z_real.length = r.frequency.length ∧
      r.z_imag.length = r.frequency.length) :=
  ⟨by decide, C9_eis_lengths cuParams (fun _ => 0) (by decide)⟩

/-- Witness for C10 at a concrete input with all three categorical
fields outside their universes. -/
theorem C10_encoder_unknown_witness :
    (outsideParams.metal ∉ METALS ∧ outsideParams.ligand ∉ LIGANDS ∧
      outsideParams.electrode ∉ ELECTRODES) ∧
    ((create_feature_vector outsideParams).length = 28 ∧
      ((create_feature_vector outsideParams).take 15).sum = 0 ∧
      (((create_feature_vector outsideParams).drop 16).take 6).sum = 0 ∧
      (((create_feature_vector outsideParams).drop 23).take 4).sum = 0) :=
  ⟨⟨by decide, by decide, by decide⟩,
    ⟨(C10_encoder_unknown outsideParams).1,
      (C10_encoder_unknown outsideParams).2.1 (by decide),
      (C10_encoder_unknown outsideParams).2.2.1 (by decide),
      (C10_encoder_unknown outsideParams).2.2.2 (by decide)⟩⟩

end MOFGen
